import Mathlib

/-!
Verification development for the guided component-architect repository.

The repository drives a generate → validate → repair loop:
`src/backend/agents.py` holds `ValidatorAgent` and `GeneratorAgent`,
`src/backend/main.py` holds the FastAPI retry orchestrator,
`src/src/validator.py` holds `CodeValidator`, and
`src/src/generator.py` holds the multi-turn `GuidedArchitect` pipeline.

All Python string operations used by the code are re-implemented here as
executable functions over `List Char` (Python `str` values are sequences of
code points, which `List Char` models directly).  Recursive scanners are
written with explicit fuel equal to the input length so that every
definition is structurally recursive and kernel-reducible.
-/

/-! ## Basic string helpers shared by every component -/

/-- Python single-character `str.count`: number of occurrences of `c`. -/
def countChar (s : String) (c : Char) : Nat :=
  s.data.count c

/-- Substring test at successive positions; `hasSub l pat` is Python `pat in l`. -/
def hasSub : List Char → List Char → Bool
  | [], pat => pat.isEmpty
  | l@(_ :: rest), pat => pat.isPrefixOf l || hasSub rest pat

/-- Python `pat in s` on strings. -/
def strContains (s pat : String) : Bool :=
  hasSub s.data pat.data

/-- Python `s.startswith(pat)`. -/
def strStarts (s pat : String) : Bool :=
  pat.data.isPrefixOf s.data

/-- Python `s.lower()` restricted to ASCII case mapping (all strings handled
by the repository are ASCII). -/
def lowerStr (s : String) : String :=
  ⟨s.data.map Char.toLower⟩

/-- Whitespace stripped by Python `str.strip()` (ASCII portion). -/
def pyIsSpace (c : Char) : Bool :=
  c == ' ' || c == '\t' || c == '\n' || c == '\r' || c == '\x0b' || c == '\x0c'

/-- Python `str.strip()` on the character list: drop whitespace from both ends. -/
def stripList (l : List Char) : List Char :=
  ((l.dropWhile pyIsSpace).reverse.dropWhile pyIsSpace).reverse

/-- Python `str.strip()`. -/
def pyStrip (s : String) : String :=
  ⟨stripList s.data⟩

/-- Python `sep.join(items)`. -/
def joinSep (sep : String) : List String → String
  | [] => ""
  | [x] => x
  | x :: xs => x ++ sep ++ joinSep sep xs

/-- Python `s[:1]` of a string, the first character as a string. -/
def strTake (s : String) (n : Nat) : String :=
  ⟨s.data.take n⟩

/-- Python `s[1:]`-style drop on a string. -/
def strDrop (s : String) (n : Nat) : String :=
  ⟨s.data.drop n⟩

/-- A hexadecimal digit, the character class `[0-9a-fA-F]`. -/
def isHexDigit (c : Char) : Bool :=
  ('0' ≤ c && c ≤ '9') || ('a' ≤ c && c ≤ 'f') || ('A' ≤ c && c ≤ 'F')

/-- Take up to `n` leading hex digits: returns the digits taken and the rest.
This is the step a regex engine performs for a counted class `[0-9a-fA-F]{lo,n}`. -/
def takeHexAux : Nat → List Char → List Char × List Char
  | 0, l => ([], l)
  | _ + 1, [] => ([], [])
  | n + 1, c :: rest =>
    if isHexDigit c then
      let p := takeHexAux n rest
      (c :: p.1, p.2)
    else ([], c :: rest)

/-! ## `ValidatorAgent` (src/backend/agents.py, lines 12–43)

The design system is the JSON document `design-system.json`, loaded once by
`src/backend/main.py`.  Its `tokens.colors` and `tokens.typography`
namespaces are flat string-to-string mappings (as in the fallback document
built in `main.py`), modelled as association lists; `rules` is a list of
free-text strings.  With string-valued colors the `isinstance(c, str)`
guard of `ValidatorAgent.__init__` is always true, leaving the
`startswith("#")` filter. -/

structure DesignSystem where
  colors : List (String × String)
  typography : List (String × String)
  rules : List String

/-- `ValidatorAgent.__init__`: the allowed color list, lower-cased values of
`tokens.colors` that start with `#`, in insertion order. -/
def vaAllowedLower (ds : DesignSystem) : List String :=
  ((ds.colors.map (fun p => p.2)).filter (fun c => strStarts c "#")).map lowerStr

/-- `ValidatorAgent.check_syntax`: bracket balance for the three pairs and
the `@Component` marker, appending one message per failed check. -/
def vaSyntaxErrors (code : String) : List String :=
  let errors : List String := []
  let errors := if countChar code '{' ≠ countChar code '}' then
      errors ++ ["Unbalanced curly braces \x7b\x7d in the generated code."] else errors
  let errors := if countChar code '[' ≠ countChar code ']' then
      errors ++ ["Unbalanced square brackets [] in the generated code."] else errors
  let errors := if countChar code '(' ≠ countChar code ')' then
      errors ++ ["Unbalanced parentheses () in the generated code."] else errors
  let errors := if strContains code "@Component" then errors
    else errors ++ ["Missing @Component decorator. Not a valid Angular component."]
  errors

/-- The scanner of `re.findall` of `#[0-9a-fA-F]{3,6}`: at each `#`,
greedily take up to six hex digits; a match needs at least three; scanning
resumes after a match and one character past a failed position.  Fuel is the
input length, which bounds the number of scanning steps. -/
def vaFindallF : Nat → List Char → List (List Char)
  | 0, _ => []
  | _ + 1, [] => []
  | fuel + 1, c :: rest =>
    if c == '#' then
      let p := takeHexAux 6 rest
      if 3 ≤ p.1.length then ('#' :: p.1) :: vaFindallF fuel p.2
      else vaFindallF fuel rest
    else vaFindallF fuel rest

/-- Hex color literals extracted by `ValidatorAgent.check_token_compliance`. -/
def vaHexFindall (code : String) : List String :=
  (vaFindallF code.data.length code.data).map (fun l => ⟨l⟩)

/-- The message f-string of `check_token_compliance`. -/
def vaUnauthMsg (color : String) : String :=
  "Unauthorized color \x27" ++ color ++ "\x27. Use design system tokens only."

/-- `ValidatorAgent.check_token_compliance`: one message appended per
extracted literal whose lower-casing is not in the allowed list. -/
def vaTokenErrors (ds : DesignSystem) (code : String) : List String :=
  (vaHexFindall code).foldl
    (fun errs color =>
      if (vaAllowedLower ds).contains (lowerStr color) then errs
      else errs ++ [vaUnauthMsg color])
    []

structure VaResult where
  valid : Bool
  errors : List String
deriving DecidableEq

/-- `ValidatorAgent.validate`: concatenate both checks; valid iff no errors. -/
def vaValidate (ds : DesignSystem) (code : String) : VaResult :=
  let all := vaSyntaxErrors code ++ vaTokenErrors ds code
  ⟨all.length == 0, all⟩

/-- The fallback design system built in `src/backend/main.py` when
`design-system.json` is missing. -/
def fallbackDS : DesignSystem :=
  ⟨[("primary", "#6366f1"), ("glassBg", "rgba(255,255,255,0.1)")], [], []⟩

/-! ## `CodeValidator` (src/src/validator.py)

`CodeValidator` loads `design-tokens.json` (not part of the sources) and
keeps `design_tokens["tokens"]["colors"]`, a JSON object whose values are
either strings or nested objects.  `TokTree`/`TokList` model that object;
`flattenList` is `_get_flattened_tokens`, including the Python `dict.update`
override semantics and the `prefix + key + "-"` key construction. -/

mutual
inductive TokTree where
  | leaf (v : String)
  | node (children : TokList)

inductive TokList where
  | nil
  | cons (key : String) (val : TokTree) (rest : TokList)
end

/-- Python `dict` assignment `items[k] = v`: override in place or append. -/
def updOne (m : List (String × String)) (kv : String × String) : List (String × String) :=
  if m.any (fun p => p.1 == kv.1) then
    m.map (fun p => if p.1 == kv.1 then (p.1, kv.2) else p)
  else m ++ [kv]

/-- Python `items.update(adds)` on insertion-ordered dictionaries. -/
def updMany (m adds : List (String × String)) : List (String × String) :=
  adds.foldl updOne m

mutual
/-- `CodeValidator._get_flattened_tokens`, iterating the object entries. -/
def flattenList (pre : String) (items : List (String × String)) : TokList → List (String × String)
  | .nil => items
  | .cons k v rest => flattenList pre (flattenEntry pre items k v) rest

/-- One entry of `_get_flattened_tokens`: a string value is assigned at
`pre ++ k`; a nested object is flattened with prefix `pre ++ k ++ "-"` into a
fresh dict which is then merged by `dict.update`. -/
def flattenEntry (pre : String) (items : List (String × String)) (k : String) : TokTree → List (String × String)
  | .leaf v => updOne items (pre ++ k, v)
  | .node kids => updMany items (flattenList (pre ++ k ++ "-") [] kids)
end

/-- The scanner of `re.findall` of `#[0-9a-fA-F]{6}|#[0-9a-fA-F]{3}`:
at each `#` the first alternative needs exactly six hex digits; otherwise the
second needs three; scanning resumes after a match and one character past a
failed position. -/
def cvFindallF : Nat → List Char → List (List Char)
  | 0, _ => []
  | _ + 1, [] => []
  | fuel + 1, c :: rest =>
    if c == '#' then
      let p := takeHexAux 6 rest
      if p.1.length == 6 then ('#' :: p.1) :: cvFindallF fuel p.2
      else if 3 ≤ p.1.length then ('#' :: p.1.take 3) :: cvFindallF fuel (p.1.drop 3 ++ p.2)
      else cvFindallF fuel rest
    else cvFindallF fuel rest

/-- Hex color literals extracted by `CodeValidator.validate_tokens`. -/
def cvHexFindall (code : String) : List String :=
  (cvFindallF code.data.length code.data).map (fun l => ⟨l⟩)

/-- The lower-cased flattened color values,
`[c.lower() for c in allowed_colors.values()]`. -/
def cvAllowedLower (colors : TokList) : List String :=
  (flattenList "" [] colors).map (fun p => lowerStr p.2)

/-- The message f-string of `validate_tokens`. -/
def cvUnauthMsg (color : String) : String :=
  "Unauthorized color found: " ++ color ++ ". Use design tokens."

/-- The error accumulation loop of `CodeValidator.validate_tokens`. -/
def cvTokenErrors (colors : TokList) (code : String) : List String :=
  (cvHexFindall code).foldl
    (fun errs color =>
      if (cvAllowedLower colors).contains (lowerStr color) then errs
      else errs ++ [cvUnauthMsg color])
    []

/-- `CodeValidator.validate_tokens` result: joined errors or success. -/
def cvValidateTokens (colors : TokList) (code : String) : Bool × String :=
  let errors := cvTokenErrors colors code
  if errors.isEmpty then (true, "Tokens valid") else (false, joinSep "\n" errors)

/-- The error message for one unbalanced pair in `validate_syntax`. -/
def cvMismatchMsg (o c : Char) : String :=
  "Mismatched characters: " ++ String.singleton o ++ " and " ++ String.singleton c

/-- The error accumulation of `CodeValidator.validate_syntax`: four balanced
pairs (including `<`/`>`), then the Angular-specific substring checks. -/
def cvSyntaxErrors (code : String) : List String :=
  let errors := ([('{', '}'), ('[', ']'), ('(', ')'), ('<', '>')] : List (Char × Char)).foldl
    (fun errs p =>
      if countChar code p.1 ≠ countChar code p.2 then errs ++ [cvMismatchMsg p.1 p.2]
      else errs)
    []
  let errors := if strContains code "@Component" then errors
    else errors ++ ["Missing @Component decorator - required for Angular components."]
  let errors := if strContains code "selector:" then errors
    else errors ++ ["Component missing \x27selector\x27 definition."]
  let errors := if strContains code "template:" || strContains code "templateUrl:" then errors
    else errors ++ ["Component missing \x27template\x27 or \x27templateUrl\x27."]
  errors

/-- `CodeValidator.validate_syntax` result pair. -/
def cvValidateSyn (code : String) : Bool × String :=
  let errors := cvSyntaxErrors code
  if errors.isEmpty then (true, "Syntax valid") else (false, joinSep " | " errors)

/-- `CodeValidator.full_validation`: syntax first; the token check runs only
when the syntax check passed. -/
def fullValidation (colors : TokList) (code : String) : Bool × String :=
  let s := cvValidateSyn code
  if s.1 then
    let t := cvValidateTokens colors code
    if t.1 then (true, "All checks passed") else (false, t.2)
  else (false, s.2)

/-! ## The retry orchestrator (src/backend/main.py, `generate_component`)

The endpoint loops `for attempt in range(MAX_RETRIES + 1)`.  Each iteration
awaits `generator.generate(...)`, which (src/backend/agents.py) returns a
single string, and unpacks it as `current_code, used_model = ...`: Python
iterable unpacking of a string succeeds exactly when the string has two
characters, binding each character; otherwise it raises `ValueError`, caught
by `except (RuntimeError, ValueError)` and labelled `PROMPT INJECTION`.

The model call is abstracted as an oracle `gen : Nat → String` giving the
string returned at each attempt index (its real arguments — prompt, previous
code and error list — only influence the network response, and the log lines,
built from wall-clock timings, are elided).  The result also carries the
trace of observable actions (model calls and validator runs). -/

/-- The message of the `ValueError` Python raises when unpacking a sized
iterable of length `n` into two targets. -/
def unpackErrMsg (n : Nat) : String :=
  if n < 2 then "not enough values to unpack (expected 2, got " ++ toString n ++ ")"
  else "too many values to unpack (expected 2)"

/-- The response model of the endpoint (field `logs`, a list of
timing-dependent strings, is elided). -/
structure GenResponse where
  code : String
  iterations : Nat
  success : Bool
  model : Option String
deriving DecidableEq

/-- Observable actions of one request. -/
inductive Event where
  | modelCall (attempt : Nat)
  | validation (attempt : Nat)
deriving DecidableEq

/-- The loop body of `generate_component`, by recursion on the remaining
attempts (`fuel = MAX_RETRIES + 1 - attempt`).  `code` and `model` are the
Python locals `current_code` (initially `""`) and `used_model` (initially
`"unknown"`). -/
def generateComponentAux (maxRetries : Nat) (ds : DesignSystem) (gen : Nat → String) :
    Nat → Nat → String → String → GenResponse × List Event
  | 0, _, code, model => (⟨code, maxRetries + 1, false, some model⟩, [])
  | fuel + 1, attempt, _, _ =>
    let s := gen attempt
    if s.length = 2 then
      let c := strTake s 1
      let m := strDrop s 1
      let r := vaValidate ds c
      if r.valid then
        (⟨c, attempt + 1, true, some m⟩, [Event.modelCall attempt, Event.validation attempt])
      else
        let next := generateComponentAux maxRetries ds gen fuel (attempt + 1) c m
        (next.1, Event.modelCall attempt :: Event.validation attempt :: next.2)
    else
      (⟨"// PROMPT INJECTION\n// " ++ unpackErrMsg s.length, attempt + 1, false, none⟩,
       [Event.modelCall attempt])

/-- `generate_component`: run the loop from attempt 0 with the initial
locals of the endpoint. -/
def generateComponent (maxRetries : Nat) (ds : DesignSystem) (gen : Nat → String) :
    GenResponse × List Event :=
  generateComponentAux maxRetries ds gen (maxRetries + 1) 0 "" "unknown"

/-- Modelled from the spec: `src/backend/main.py` imports `MAX_RETRIES` from
`agents`, but `src/backend/agents.py` as given does not define it.  The spec
fixes the budget at "3–4 total attempts ... one initial generation plus a
bounded number of repair passes"; we take `MAX_RETRIES = 3` repair passes,
giving 4 total attempts. -/
def MAX_RETRIES : Nat := 3

/-! ## `GeneratorAgent` (src/backend/agents.py, lines 48–399)

`_tokens` projects the design system onto a fixed record of defaults;
`_classify_prompt` and the `name` computation drive `_simulation_code`,
whose four f-string templates are transcribed verbatim below (Python `{{`
and `}}` render as literal braces, written `\x7b`/`\x7d`).

The dashboard template interpolates
`tk["primaryLight"] if "primaryLight" in ...colors else "#eef2ff"`; since the
`tk` dict built by `_tokens` has no `primaryLight` key, Python raises
`KeyError` while building the template dict whenever the design system
defines `primaryLight` — the dict literal evaluates all four templates
eagerly, so `_simulation_code` then raises for every prompt.  That escape of
an exception is modelled by `simulationCode` returning `none`; in the
remaining (`some`) case the conditional renders `#eef2ff`. -/

structure Tk where
  primary : String
  bg : String
  bgAlt : String
  surface : String
  border : String
  text : String
  textSec : String
  textMuted : String
  success : String
  danger : String
  font : String

/-- Python `dict.get(k, d)` on the colors namespace. -/
def getColor (ds : DesignSystem) (k d : String) : String :=
  match ds.colors.find? (fun p => p.1 == k) with
  | some p => p.2
  | none => d

/-- Python `dict.get(k, d)` on the typography namespace. -/
def getTypo (ds : DesignSystem) (k d : String) : String :=
  match ds.typography.find? (fun p => p.1 == k) with
  | some p => p.2
  | none => d

/-- `GeneratorAgent._tokens`. -/
def gaTokens (ds : DesignSystem) : Tk :=
  ⟨getColor ds "primary" "#4f46e5",
   getColor ds "background" "#ffffff",
   getColor ds "backgroundAlt" "#f8fafc",
   getColor ds "surface" "#ffffff",
   getColor ds "border" "#e2e8f0",
   getColor ds "text" "#0f172a",
   getColor ds "textSecondary" "#475569",
   getColor ds "textMuted" "#94a3b8",
   getColor ds "success" "#16a34a",
   getColor ds "danger" "#dc2626",
   getTypo ds "fontFamily" "Inter, sans-serif"⟩

/-- `GeneratorAgent._classify_prompt`: first matching keyword family wins. -/
def classifyPrompt (prompt : String) : String :=
  let p := lowerStr prompt
  if (["login", "signin", "sign in", "auth", "password"] : List String).any (fun w => strContains p w) then "auth"
  else if (["dashboard", "analytics", "stats", "metric", "chart"] : List String).any (fun w => strContains p w) then "dashboard"
  else if (["card", "profile", "user", "avatar"] : List String).any (fun w => strContains p w) then "card"
  else if (["nav", "header", "menu", "sidebar"] : List String).any (fun w => strContains p w) then "nav"
  else if (["table", "list", "data", "grid", "row"] : List String).any (fun w => strContains p w) then "table"
  else if (["form", "input", "register", "signup", "contact"] : List String).any (fun w => strContains p w) then "form"
  else if (["button", "cta", "action"] : List String).any (fun w => strContains p w) then "button"
  else "generic"

/-- Python `str.title()` on the alphanumeric-and-space strings produced by
the `re.sub` below: a letter is upper-cased after a non-letter and
lower-cased after a letter. -/
def titleCase : Bool → List Char → List Char
  | _, [] => []
  | prev, c :: rest =>
    let c2 := if c.isAlpha then (if prev then c.toLower else c.toUpper) else c
    c2 :: titleCase c.isAlpha rest

/-- The `name` computation of `_simulation_code`:
`re.sub(r'[^a-zA-Z0-9]', ' ', user_prompt).title().replace(' ', '')[:24] or 'Generated'`. -/
def nameFromPrompt (prompt : String) : String :=
  let cleaned := prompt.data.map (fun c => if c.isAlphanum then c else ' ')
  let titled := titleCase false cleaned
  let trunc := (titled.filter (fun c => c ≠ ' ')).take 24
  if trunc.isEmpty then "Generated" else ⟨trunc⟩

def authTemplate (tk : Tk) (name : String) : String :=
  "import \x7b Component \x7d from \x27@angular/core\x27;\n" ++
  "import \x7b FormsModule \x7d from \x27@angular/forms\x27;\n" ++
  "import \x7b CommonModule \x7d from \x27@angular/common\x27;\n" ++
  "\n" ++
  "@Component(\x7b\n" ++
  "  selector: \x27app-" ++ lowerStr name ++ "-auth\x27,\n" ++
  "  standalone: true,\n" ++
  "  imports: [FormsModule, CommonModule],\n" ++
  "  template: `\n" ++
  "    <div class=\"min-h-screen bg-gray-50 flex items-center justify-center p-6\">\n" ++
  "      <div class=\"w-full max-w-md bg-white rounded-2xl border border-gray-200 shadow-lg p-8\">\n" ++
  "        <div class=\"text-center mb-8\">\n" ++
  "          <div class=\"w-12 h-12 rounded-xl flex items-center justify-center mx-auto mb-4\" style=\"background-color:" ++ tk.primary ++ "\">\n" ++
  "            <svg class=\"w-6 h-6 text-white\" fill=\"none\" stroke=\"currentColor\" viewBox=\"0 0 24 24\">\n" ++
  "              <path stroke-linecap=\"round\" stroke-linejoin=\"round\" stroke-width=\"2\" d=\"M12 15v2m-6 4h12a2 2 0 002-2v-6a2 2 0 00-2-2H6a2 2 0 00-2 2v6a2 2 0 002 2zm10-10V7a4 4 0 00-8 0v4h8z\"/>\n" ++
  "            </svg>\n" ++
  "          </div>\n" ++
  "          <h1 class=\"text-2xl font-bold text-gray-900\">Welcome back</h1>\n" ++
  "          <p class=\"mt-1 text-sm text-gray-500\">Sign in to your account to continue</p>\n" ++
  "        </div>\n" ++
  "        <form class=\"space-y-5\">\n" ++
  "          <div>\n" ++
  "            <label class=\"block text-sm font-medium text-gray-700 mb-1.5\">Email address</label>\n" ++
  "            <input type=\"email\" placeholder=\"you@example.com\" [(ngModel)]=\"email\" name=\"email\"\n" ++
  "              class=\"w-full px-4 py-3 rounded-xl border border-gray-200 text-gray-900 text-sm placeholder-gray-400 focus:outline-none focus:ring-2 focus:border-transparent transition\"\n" ++
  "              style=\"focus-ring-color:" ++ tk.primary ++ "\"/>\n" ++
  "          </div>\n" ++
  "          <div>\n" ++
  "            <div class=\"flex justify-between mb-1.5\">\n" ++
  "              <label class=\"block text-sm font-medium text-gray-700\">Password</label>\n" ++
  "              <a href=\"#\" class=\"text-xs font-medium\" style=\"color:" ++ tk.primary ++ "\">Forgot password?</a>\n" ++
  "            </div>\n" ++
  "            <input type=\"password\" placeholder=\"••••••••\" [(ngModel)]=\"password\" name=\"password\"\n" ++
  "              class=\"w-full px-4 py-3 rounded-xl border border-gray-200 text-gray-900 text-sm placeholder-gray-400 focus:outline-none focus:ring-2 focus:border-transparent transition\"/>\n" ++
  "          </div>\n" ++
  "          <button type=\"submit\"\n" ++
  "            class=\"w-full py-3 px-4 rounded-xl text-white text-sm font-semibold shadow-sm transition hover:opacity-90 focus:outline-none focus:ring-2 focus:ring-offset-2\"\n" ++
  "            style=\"background-color:" ++ tk.primary ++ "\">\n" ++
  "            Sign in\n" ++
  "          </button>\n" ++
  "        </form>\n" ++
  "        <p class=\"text-center text-sm text-gray-500 mt-6\">\n" ++
  "          Don\x27t have an account?\n" ++
  "          <a href=\"#\" class=\"font-semibold ml-1\" style=\"color:" ++ tk.primary ++ "\">Create one</a>\n" ++
  "        </p>\n" ++
  "      </div>\n" ++
  "    </div>\n" ++
  "  `\n" ++
  "\x7d)\n" ++
  "export class " ++ name ++ "AuthComponent \x7b\n" ++
  "  email = \x27\x27;\n" ++
  "  password = \x27\x27;\n" ++
  "\x7d"

def dashboardTemplate (tk : Tk) (name : String) : String :=
  "import \x7b Component \x7d from \x27@angular/core\x27;\n" ++
  "import \x7b CommonModule \x7d from \x27@angular/common\x27;\n" ++
  "\n" ++
  "@Component(\x7b\n" ++
  "  selector: \x27app-" ++ lowerStr name ++ "-dashboard\x27,\n" ++
  "  standalone: true,\n" ++
  "  imports: [CommonModule],\n" ++
  "  template: `\n" ++
  "    <div class=\"min-h-screen bg-gray-50 p-6\">\n" ++
  "      <div class=\"max-w-6xl mx-auto\">\n" ++
  "        <div class=\"mb-8\">\n" ++
  "          <h1 class=\"text-2xl font-bold text-gray-900\">Analytics Dashboard</h1>\n" ++
  "          <p class=\"text-sm text-gray-500 mt-1\">Track your key metrics in real-time.</p>\n" ++
  "        </div>\n" ++
  "        <div class=\"grid grid-cols-1 sm:grid-cols-2 lg:grid-cols-4 gap-5 mb-8\">\n" ++
  "          <div *ngFor=\"let stat of stats\" class=\"bg-white rounded-2xl border border-gray-200 p-5 shadow-sm hover:shadow-md transition\">\n" ++
  "            <div class=\"flex items-center justify-between mb-3\">\n" ++
  "              <span class=\"text-xs font-semibold uppercase tracking-widest text-gray-400\">\x7b\x7b stat.label \x7d\x7d</span>\n" ++
  "              <span class=\"text-xs font-medium px-2 py-0.5 rounded-full\" [ngClass]=\"stat.change > 0 ? \x27bg-green-50 text-green-600\x27 : \x27bg-red-50 text-red-600\x27\">\n" ++
  "                \x7b\x7b stat.change > 0 ? \x27+\x27 : \x27\x27 \x7d\x7d\x7b\x7b stat.change \x7d\x7d%\n" ++
  "              </span>\n" ++
  "            </div>\n" ++
  "            <p class=\"text-3xl font-bold text-gray-900\">\x7b\x7b stat.value \x7d\x7d</p>\n" ++
  "          </div>\n" ++
  "        </div>\n" ++
  "        <div class=\"bg-white rounded-2xl border border-gray-200 shadow-sm p-6\">\n" ++
  "          <h2 class=\"text-base font-semibold text-gray-800 mb-4\">Recent Activity</h2>\n" ++
  "          <div class=\"space-y-3\">\n" ++
  "            <div *ngFor=\"let item of activity\" class=\"flex items-center gap-3 py-2 border-b border-gray-100 last:border-0\">\n" ++
  "              <div class=\"w-8 h-8 rounded-full flex items-center justify-center shrink-0\" style=\"background-color:#eef2ff\">\n" ++
  "                <span class=\"text-xs font-bold\" style=\"color:" ++ tk.primary ++ "\">\x7b\x7b item.initials \x7d\x7d</span>\n" ++
  "              </div>\n" ++
  "              <div class=\"flex-1 min-w-0\">\n" ++
  "                <p class=\"text-sm font-medium text-gray-800 truncate\">\x7b\x7b item.action \x7d\x7d</p>\n" ++
  "                <p class=\"text-xs text-gray-400\">\x7b\x7b item.time \x7d\x7d</p>\n" ++
  "              </div>\n" ++
  "            </div>\n" ++
  "          </div>\n" ++
  "        </div>\n" ++
  "      </div>\n" ++
  "    </div>\n" ++
  "  `\n" ++
  "\x7d)\n" ++
  "export class " ++ name ++ "DashboardComponent \x7b\n" ++
  "  stats = [\n" ++
  "    \x7b label: \x27Total Users\x27, value: \x2712,842\x27, change: 12 \x7d,\n" ++
  "    \x7b label: \x27Revenue\x27, value: \x27$48,320\x27, change: 8 \x7d,\n" ++
  "    \x7b label: \x27Conversion\x27, value: \x273.24%\x27, change: -2 \x7d,\n" ++
  "    \x7b label: \x27Active Now\x27, value: \x271,209\x27, change: 5 \x7d,\n" ++
  "  ];\n" ++
  "  activity = [\n" ++
  "    \x7b initials: \x27AK\x27, action: \x27New signup from anmol@dev.io\x27, time: \x272 min ago\x27 \x7d,\n" ++
  "    \x7b initials: \x27RJ\x27, action: \x27Payment received — $249 plan\x27, time: \x2714 min ago\x27 \x7d,\n" ++
  "    \x7b initials: \x27SL\x27, action: \x27Support ticket #4821 resolved\x27, time: \x271 hr ago\x27 \x7d,\n" ++
  "  ];\n" ++
  "\x7d"

def cardTemplate (tk : Tk) (name : String) : String :=
  "import \x7b Component \x7d from \x27@angular/core\x27;\n" ++
  "\n" ++
  "@Component(\x7b\n" ++
  "  selector: \x27app-" ++ lowerStr name ++ "-card\x27,\n" ++
  "  standalone: true,\n" ++
  "  template: `\n" ++
  "    <div class=\"min-h-screen bg-gray-50 flex items-center justify-center p-6\">\n" ++
  "      <div class=\"bg-white rounded-2xl border border-gray-200 shadow-lg overflow-hidden w-80\">\n" ++
  "        <div class=\"h-24 w-full\" style=\"background: linear-gradient(135deg, " ++ tk.primary ++ ", #7c3aed)\"></div>\n" ++
  "        <div class=\"px-6 pb-6\">\n" ++
  "          <div class=\"flex items-end gap-4 -mt-10 mb-4\">\n" ++
  "            <div class=\"w-20 h-20 rounded-2xl border-4 border-white shadow-md bg-gray-100 flex items-center justify-center\">\n" ++
  "              <span class=\"text-2xl font-bold text-gray-400\">AK</span>\n" ++
  "            </div>\n" ++
  "            <div class=\"pb-1\">\n" ++
  "              <h2 class=\"font-bold text-gray-900 text-lg leading-tight\">Anmol Kumar</h2>\n" ++
  "              <p class=\"text-sm text-gray-500\">Senior Engineer</p>\n" ++
  "            </div>\n" ++
  "          </div>\n" ++
  "          <p class=\"text-sm text-gray-600 leading-relaxed mb-5\">\n" ++
  "            Building scalable systems and beautiful interfaces. Passionate about clean code and great UX.\n" ++
  "          </p>\n" ++
  "          <div class=\"flex gap-3\">\n" ++
  "            <button class=\"flex-1 py-2.5 rounded-xl text-white text-sm font-semibold transition hover:opacity-90\"\n" ++
  "              style=\"background-color:" ++ tk.primary ++ "\">Connect</button>\n" ++
  "            <button class=\"flex-1 py-2.5 rounded-xl text-sm font-semibold border border-gray-200 text-gray-700 hover:bg-gray-50 transition\">Message</button>\n" ++
  "          </div>\n" ++
  "        </div>\n" ++
  "      </div>\n" ++
  "    </div>\n" ++
  "  `\n" ++
  "\x7d)\n" ++
  "export class " ++ name ++ "CardComponent \x7b\x7d"

def tableTemplate (tk : Tk) (name : String) : String :=
  "import \x7b Component \x7d from \x27@angular/core\x27;\n" ++
  "import \x7b CommonModule \x7d from \x27@angular/common\x27;\n" ++
  "\n" ++
  "@Component(\x7b\n" ++
  "  selector: \x27app-" ++ lowerStr name ++ "-table\x27,\n" ++
  "  standalone: true,\n" ++
  "  imports: [CommonModule],\n" ++
  "  template: `\n" ++
  "    <div class=\"min-h-screen bg-gray-50 p-6\">\n" ++
  "      <div class=\"max-w-5xl mx-auto bg-white rounded-2xl border border-gray-200 shadow-sm overflow-hidden\">\n" ++
  "        <div class=\"px-6 py-5 border-b border-gray-100 flex items-center justify-between\">\n" ++
  "          <div>\n" ++
  "            <h2 class=\"text-lg font-bold text-gray-900\">Users</h2>\n" ++
  "            <p class=\"text-sm text-gray-400 mt-0.5\">Manage your team members</p>\n" ++
  "          </div>\n" ++
  "          <button class=\"px-4 py-2 rounded-lg text-white text-sm font-semibold transition hover:opacity-90\" style=\"background-color:" ++ tk.primary ++ "\">\n" ++
  "            + Invite\n" ++
  "          </button>\n" ++
  "        </div>\n" ++
  "        <table class=\"w-full\">\n" ++
  "          <thead>\n" ++
  "            <tr class=\"border-b border-gray-100 bg-gray-50/60\">\n" ++
  "              <th class=\"px-6 py-3 text-left text-xs font-semibold text-gray-500 uppercase tracking-wider\">Name</th>\n" ++
  "              <th class=\"px-6 py-3 text-left text-xs font-semibold text-gray-500 uppercase tracking-wider\">Role</th>\n" ++
  "              <th class=\"px-6 py-3 text-left text-xs font-semibold text-gray-500 uppercase tracking-wider\">Status</th>\n" ++
  "              <th class=\"px-6 py-3 text-left text-xs font-semibold text-gray-500 uppercase tracking-wider\">Joined</th>\n" ++
  "            </tr>\n" ++
  "          </thead>\n" ++
  "          <tbody>\n" ++
  "            <tr *ngFor=\"let user of users\" class=\"border-b border-gray-50 hover:bg-gray-50/50 transition\">\n" ++
  "              <td class=\"px-6 py-4 flex items-center gap-3\">\n" ++
  "                <div class=\"w-8 h-8 rounded-full flex items-center justify-center text-xs font-bold text-white\" style=\"background-color:" ++ tk.primary ++ "\">\n" ++
  "                  \x7b\x7b user.name[0] \x7d\x7d\n" ++
  "                </div>\n" ++
  "                <div>\n" ++
  "                  <p class=\"text-sm font-medium text-gray-900\">\x7b\x7b user.name \x7d\x7d</p>\n" ++
  "                  <p class=\"text-xs text-gray-400\">\x7b\x7b user.email \x7d\x7d</p>\n" ++
  "                </div>\n" ++
  "              </td>\n" ++
  "              <td class=\"px-6 py-4 text-sm text-gray-600\">\x7b\x7b user.role \x7d\x7d</td>\n" ++
  "              <td class=\"px-6 py-4\">\n" ++
  "                <span class=\"px-2.5 py-1 rounded-full text-xs font-medium\"\n" ++
  "                  [ngClass]=\"user.active ? \x27bg-green-50 text-green-700\x27 : \x27bg-gray-100 text-gray-500\x27\">\n" ++
  "                  \x7b\x7b user.active ? \x27Active\x27 : \x27Inactive\x27 \x7d\x7d\n" ++
  "                </span>\n" ++
  "              </td>\n" ++
  "              <td class=\"px-6 py-4 text-sm text-gray-400\">\x7b\x7b user.joined \x7d\x7d</td>\n" ++
  "            </tr>\n" ++
  "          </tbody>\n" ++
  "        </table>\n" ++
  "      </div>\n" ++
  "    </div>\n" ++
  "  `\n" ++
  "\x7d)\n" ++
  "export class " ++ name ++ "TableComponent \x7b\n" ++
  "  users = [\n" ++
  "    \x7b name: \x27Anmol Kumar\x27, email: \x27anmol@company.io\x27, role: \x27Lead Engineer\x27, active: true, joined: \x27Jan 2024\x27 \x7d,\n" ++
  "    \x7b name: \x27Priya Sharma\x27, email: \x27priya@company.io\x27, role: \x27Product Manager\x27, active: true, joined: \x27Mar 2024\x27 \x7d,\n" ++
  "    \x7b name: \x27Rahul Dev\x27, email: \x27rahul@company.io\x27, role: \x27Designer\x27, active: false, joined: \x27Feb 2024\x27 \x7d,\n" ++
  "  ];\n" ++
  "\x7d"

/-- True when the colors namespace defines `primaryLight` (the `KeyError`
trigger described above). -/
def hasPrimaryLight (ds : DesignSystem) : Bool :=
  ds.colors.any (fun p => p.1 == "primaryLight")

/-- `GeneratorAgent._simulation_code`: `none` models the `KeyError` escaping
when the design system defines `primaryLight`; otherwise the template chosen
by `templates.get(kind, templates.get("card", ""))` (the kinds `nav`, `form`,
`button` and `generic` fall back to the card template, and the
`if not code` branch is unreachable because every template is non-empty). -/
def simulationCode (ds : DesignSystem) (userPrompt : String) : Option String :=
  if hasPrimaryLight ds then none
  else
    let tk := gaTokens ds
    let kind := classifyPrompt userPrompt
    let name := nameFromPrompt userPrompt
    some (if kind == "auth" then authTemplate tk name
      else if kind == "dashboard" then dashboardTemplate tk name
      else if kind == "table" then tableTemplate tk name
      else cardTemplate tk name)

/-! ## The output cleaner `GeneratorAgent._strip_markdown`

Three steps, in source order: `re.sub` of the fence-opener pattern (three backticks, `[a-z]*`, an optional newline), then `text.replace` removing every remaining triple backtick, then `text.strip()`.  The backtick character is
written through `btChar` throughout. -/

/-- The backtick character. -/
def btChar : Char := Char.ofNat 96

/-- Three backticks, the fence marker. -/
def tripleBT : List Char := [btChar, btChar, btChar]

def isBT (c : Char) : Bool := c == btChar

/-- A lowercase ASCII letter, the class `[a-z]` of the fence-opener pattern. -/
def isLowerAlpha (c : Char) : Bool := 'a' ≤ c && c ≤ 'z'

/-- After a matched `` ``` ``, the pattern consumes `[a-z]*` greedily and
then one optional newline. -/
def dropLang : List Char → List Char
  | [] => []
  | c :: rest =>
    if isLowerAlpha c then dropLang rest
    else if c == '\n' then rest
    else c :: rest

/-- The scanner of the `re.sub` fence-opener removal: each leftmost match
is removed; scanning resumes after a removal and one character past a failed
position.  Fuel bounds the steps (each consumes at least one character). -/
def subFenceFuel : Nat → List Char → List Char
  | 0, l => l
  | _ + 1, [] => []
  | _ + 1, [a] => [a]
  | _ + 1, [a, b] => [a, b]
  | fuel + 1, a :: b :: c :: rest =>
    if isBT a && isBT b && isBT c then subFenceFuel fuel (dropLang rest)
    else a :: subFenceFuel fuel (b :: c :: rest)

/-- Python `text.replace` of triple backticks by the empty string: left-to-right removal of
non-overlapping occurrences. -/
def replaceTriple : List Char → List Char
  | [] => []
  | [a] => [a]
  | [a, b] => [a, b]
  | a :: b :: c :: rest =>
    if isBT a && isBT b && isBT c then replaceTriple rest
    else a :: replaceTriple (b :: c :: rest)

/-- `_strip_markdown` on the character list: sub, replace, strip, in order. -/
def smList (l : List Char) : List Char :=
  stripList (replaceTriple (subFenceFuel (l.length + 1) l))

/-- `GeneratorAgent._strip_markdown`. -/
def stripMarkdown (s : String) : String :=
  ⟨smList s.data⟩

/-! ## `GeneratorAgent.generate`

The async method never raises on its own: with no API key it returns the
simulation code; otherwise the single network call either yields a response
body (whose parsed content is cleaned by `_strip_markdown`), or raises — a
`ConnectError`/`TimeoutException`/`OSError` is caught and answered with the
simulation code, and every other exception is caught by the final handler
and answered the same way.  The network outcome is an explicit parameter;
`none` in the result is the `KeyError` escape of `simulationCode`. -/

inductive NetOutcome where
  | ok (raw : String)
  | netError
  | apiError

/-- `GeneratorAgent.generate`. -/
def gaGenerate (ds : DesignSystem) (apiKey : Option String) (userPrompt : String)
    (outcome : NetOutcome) : Option String :=
  match apiKey with
  | none => simulationCode ds userPrompt
  | some _ =>
    match outcome with
    | .ok raw => some (stripMarkdown raw)
    | .netError => simulationCode ds userPrompt
    | .apiError => simulationCode ds userPrompt

/-! ## `GuidedArchitect.run_pipeline` (src/src/generator.py, lines 52–91)

The long-lived history `self.history` is a list of role/content records.
`run_pipeline` first appends the user request to the history, builds the
message list `[system] + history` (a fresh Python list), and loops
`for attempt in range(3)`: the callback output is searched for a fenced code
block (`re.search` of the fenced-block pattern `(?:typescript|tsx|html)` with a lazy dot-all group),
validated with `full_validation`, and on failure the raw output plus a
correction request are appended to the local message list only.  On success
the fenced final code is appended to the history; on exhaustion the last
code is returned and nothing further is appended.

The system-prompt text (a fixed f-string around `json.dumps` of the token
file) only feeds the callback, so it is a parameter here. -/

structure Turn where
  role : String
  content : String
deriving DecidableEq

/-- Split at the first occurrence of three backticks: the characters before
it and the characters after it. -/
def findTriple : List Char → Option (List Char × List Char)
  | [] => none
  | a :: rest =>
    if tripleBT.isPrefixOf (a :: rest) then some ([], rest.drop 2)
    else
      match findTriple rest with
      | some p => some (a :: p.1, p.2)
      | none => none

/-- The fence-opener alternation `` ```(?:typescript|tsx|html) `` followed by
a newline, tried in pattern order at one position; returns the remainder. -/
def matchHeader (l : List Char) : Option (List Char) :=
  let ts := "```typescript\n".data
  let tsx := "```tsx\n".data
  let html := "```html\n".data
  if ts.isPrefixOf l then some (l.drop ts.length)
  else if tsx.isPrefixOf l then some (l.drop tsx.length)
  else if html.isPrefixOf l then some (l.drop html.length)
  else none

/-- `re.search` of the fenced-block pattern: at the leftmost position where
a header matches and a closing fence follows, the lazy group is everything
up to that first closing fence. -/
def searchFence : List Char → Option (List Char)
  | [] => none
  | a :: rest =>
    match matchHeader (a :: rest) with
    | some afterHeader =>
      match findTriple afterHeader with
      | some p => some p.1
      | none => searchFence rest
    | none => searchFence rest

/-- The extraction step of `run_pipeline`: the fenced group if the pattern
matches, the raw output otherwise. -/
def extractFenced (generated : String) : String :=
  match searchFence generated.data with
  | some inner => ⟨inner⟩
  | none => generated

/-- The fenced wrapper `run_pipeline` stores in the history on success. -/
def tsFence (code : String) : String :=
  "```typescript\n" ++ code ++ "\n```"

/-- The correction message appended to the per-run message list. -/
def correctionTurn (message : String) : Turn :=
  ⟨"user", "ERROR IN PREVIOUS OUTPUT:\n" ++ message ++ "\nPlease fix the errors and provide the corrected code."⟩

/-- The `for attempt in range(3)` loop of `run_pipeline`, returning the
final code and the updated long-lived history.  `hist1` is the history after
the user turn was appended; `messages` is the per-run message list. -/
def runPipelineAux (colors : TokList) (llm : List Turn → String) :
    Nat → List Turn → List Turn → String → String × List Turn
  | 0, hist1, _, lastCode => (lastCode, hist1)
  | fuel + 1, hist1, messages, _ =>
    let generated := llm messages
    let code := extractFenced generated
    let v := fullValidation colors code
    if v.1 then (code, hist1 ++ [⟨"assistant", tsFence code⟩])
    else runPipelineAux colors llm fuel hist1
      (messages ++ [⟨"assistant", generated⟩, correctionTurn v.2]) code

/-- `GuidedArchitect.run_pipeline`. -/
def runPipeline (colors : TokList) (sysPrompt : String) (history : List Turn)
    (userPrompt : String) (llm : List Turn → String) : String × List Turn :=
  let hist1 := history ++ [⟨"user", userPrompt⟩]
  let messages := ⟨"system", sysPrompt⟩ :: hist1
  runPipelineAux colors llm 3 hist1 messages ""

/-! ## The input sanitizer

Modelled from the spec: no sanitizer exists under `src/` — only the
`except (RuntimeError, ValueError)` handler of `src/backend/main.py`, which
labels a `ValueError` as `PROMPT INJECTION`, refers to one.  Spec §4.2
specifies `sanitize`: the input is rejected with an InjectionDetected
condition when it matches one of a fixed ordered set of case-insensitive
patterns (among them the literal phrase "ignore previous instructions");
otherwise the trimmed text is returned (the replacement of reserved
delimiter tags by a neutral placeholder is not further specified and no
claim depends on it).  Spec §4.6 places the sanitizer before the model
client, so a rejection aborts the request with a diagnostic, zero model
calls and zero validations. -/

/-- Modelled from the spec: the fixed ordered injection patterns of §4.2. -/
def injectionPatterns : List String :=
  ["ignore previous instructions", "bypass governance", "you are now a"]

/-- Modelled from the spec: `sanitize` rejects on any pattern match
(case-insensitively), else returns the trimmed text. -/
def sanitize (text : String) : Except String String :=
  if injectionPatterns.any (fun p => strContains (lowerStr text) p) then
    Except.error "InjectionDetected"
  else Except.ok (pyStrip text)

/-- Modelled from the spec: the orchestrator with the sanitizer in front of
the generate/validate loop — on InjectionDetected the request aborts with a
diagnostic in place of code, before any model call. -/
def runSanitized (maxRetries : Nat) (ds : DesignSystem) (gen : Nat → String)
    (prompt : String) : GenResponse × List Event :=
  match sanitize prompt with
  | Except.error e => (⟨"// PROMPT INJECTION\n// " ++ e, 0, false, none⟩, [])
  | Except.ok _ => generateComponent maxRetries ds gen

/-- The three bracket-imbalance messages of `check_syntax`, in source order. -/
def vaImbalanceErrors (code : String) : List String :=
  (if countChar code '{' ≠ countChar code '}' then
    ["Unbalanced curly braces \x7b\x7d in the generated code."] else []) ++
  (if countChar code '[' ≠ countChar code ']' then
    ["Unbalanced square brackets [] in the generated code."] else []) ++
  (if countChar code '(' ≠ countChar code ')' then
    ["Unbalanced parentheses () in the generated code."] else [])

/-- The missing-marker message of `check_syntax`. -/
def vaMarkerErrors (code : String) : List String :=
  if strContains code "@Component" then []
  else ["Missing @Component decorator. Not a valid Angular component."]

/-- The unauthorized-color messages as a filter-and-map. -/
def vaUnauthorizedList (ds : DesignSystem) (code : String) : List String :=
  ((vaHexFindall code).filter (fun c => !(vaAllowedLower ds).contains (lowerStr c))).map vaUnauthMsg


/-- A string of the form `#` followed by exactly 3 or exactly 6 hex digits. -/
def isHex3or6 (s : String) : Bool :=
  match s.data with
  | c :: ds => c == '#' && (ds.length == 3 || ds.length == 6) && ds.all isHexDigit
  | [] => false


/-! ## Lemmas about the error-accumulation loops -/

theorem takeHexAux_append : ∀ (n : Nat) (l : List Char),
    (takeHexAux n l).1 ++ (takeHexAux n l).2 = l := by
  intro n
  induction n with
  | zero => intro l; simp [takeHexAux]
  | succ n ih =>
    intro l
    cases l with
    | nil => simp [takeHexAux]
    | cons c rest =>
      by_cases h : isHexDigit c = true
      · simp [takeHexAux, h, ih rest]
      · simp [takeHexAux, h]

theorem takeHexAux_all_hex : ∀ (n : Nat) (l : List Char),
    ∀ c ∈ (takeHexAux n l).1, isHexDigit c = true := by
  intro n
  induction n with
  | zero => intro l c hc; simp [takeHexAux] at hc
  | succ n ih =>
    intro l c hc
    cases l with
    | nil => simp [takeHexAux] at hc
    | cons a rest =>
      by_cases h : isHexDigit a = true
      · simp [takeHexAux, h] at hc
        rcases hc with hc | hc
        · exact hc ▸ h
        · exact ih rest c hc
      · simp [takeHexAux, h] at hc

theorem takeHexAux_snd_length : ∀ (n : Nat) (l : List Char),
    (takeHexAux n l).2.length ≤ l.length := by
  intro n l
  have h := takeHexAux_append n l
  have := congrArg List.length h
  simp at this
  omega


/-- The Python pattern `errors = []; for c in l: if not p(c): errors.append(f(c))`
collects exactly the images of the elements failing `p`, in order. -/
theorem foldl_collect (p : String → Bool) (f : String → String) :
    ∀ (l acc : List String),
      l.foldl (fun errs c => if p c then errs else errs ++ [f c]) acc
        = acc ++ (l.filter (fun c => !p c)).map f := by
  intro l
  induction l with
  | nil => intro acc; simp
  | cons c rest ih =>
    intro acc
    by_cases h : p c = true
    · simp [List.foldl_cons, h, ih]
    · simp only [Bool.not_eq_true] at h
      simp [List.foldl_cons, h, ih]

theorem vaSyntaxErrors_decompose (code : String) :
    vaSyntaxErrors code = vaImbalanceErrors code ++ vaMarkerErrors code := by
  simp only [vaSyntaxErrors, vaImbalanceErrors, vaMarkerErrors]
  split_ifs <;> simp

theorem vaTokenErrors_eq (ds : DesignSystem) (code : String) :
    vaTokenErrors ds code = vaUnauthorizedList ds code := by
  unfold vaTokenErrors vaUnauthorizedList
  rw [foldl_collect]
  simp

/-- C1 — For every artifact with equal counts of each bracket pair, both
required structural markers present, and every extracted hex literal drawn
case-insensitively from the design-system color set, `ValidatorAgent.validate`
returns `valid = true` with an empty error list. -/
theorem validator_accepts_compliant_artifacts (ds : DesignSystem) (code : String)
    (h1 : countChar code '{' = countChar code '}')
    (h2 : countChar code '[' = countChar code ']')
    (h3 : countChar code '(' = countChar code ')')
    (h4 : strContains code "@Component" = true)
    (_h5 : strContains code "standalone: true" = true)
    (h6 : ∀ c ∈ vaHexFindall code, (vaAllowedLower ds).contains (lowerStr c) = true) :
    vaValidate ds code = ⟨true, []⟩ := by
  have hs : vaSyntaxErrors code = [] := by
    simp [vaSyntaxErrors, h1, h2, h3, h4]
  have ht : vaTokenErrors ds code = [] := by
    rw [vaTokenErrors_eq]
    unfold vaUnauthorizedList
    have : (vaHexFindall code).filter (fun c => !(vaAllowedLower ds).contains (lowerStr c)) = [] := by
      rw [List.filter_eq_nil_iff]
      intro c hc
      simpa using h6 c hc
    rw [this]
    rfl
  simp [vaValidate, hs, ht]

theorem validator_accepts_compliant_artifacts_witness :
    vaValidate fallbackDS "@Component(\x7b standalone: true \x7d) [] #6366f1" = ⟨true, []⟩ :=
  validator_accepts_compliant_artifacts fallbackDS _
    (by decide) (by decide) (by decide) (by decide) (by decide) (by decide)

/-- C5 — `ValidatorAgent.validate` evaluates every check on the raw artifact
and accumulates all their messages: the error list is exactly the imbalance
messages, then the missing-marker message, then the unauthorized-token
messages, each component computed from the artifact alone; `valid` is true
exactly when that list is empty. -/
theorem validator_accumulates_errors_in_order (ds : DesignSystem) (code : String) :
    (vaValidate ds code).errors
      = vaImbalanceErrors code ++ vaMarkerErrors code ++ vaUnauthorizedList ds code ∧
    ((vaValidate ds code).valid = true ↔ (vaValidate ds code).errors = []) := by
  constructor
  · simp [vaValidate, vaSyntaxErrors_decompose, vaTokenErrors_eq]
  · simp [vaValidate, List.length_eq_zero]

/-- C7 counterexample — with the fallback design system, the artifact
`"#bad111 #bad111"` contains one distinct unauthorized hex literal but
`check_token_compliance` reports two violations: the count follows
occurrences, not distinct literals. -/
theorem violation_count_not_deduplicated_counterexample :
    (vaTokenErrors fallbackDS "#bad111 #bad111").length = 2 ∧
    ((vaHexFindall "#bad111 #bad111").dedup.filter
        (fun c => !(vaAllowedLower fallbackDS).contains (lowerStr c))).length = 1 := by
  decide

/-- C7 amended — for every artifact, the number of reported color violations
equals the number of extracted hex literal occurrences (not deduplicated,
with no cap) whose lower-casing is outside the allowed set, in both
`ValidatorAgent.check_token_compliance` and `CodeValidator.validate_tokens`. -/
theorem violation_count_equals_occurrences (ds : DesignSystem) (colors : TokList) (code : String) :
    (vaTokenErrors ds code).length
      = ((vaHexFindall code).filter (fun c => !(vaAllowedLower ds).contains (lowerStr c))).length ∧
    (cvTokenErrors colors code).length
      = ((cvHexFindall code).filter (fun c => !(cvAllowedLower colors).contains (lowerStr c))).length := by
  constructor
  · unfold vaTokenErrors
    rw [foldl_collect]
    simp
  · unfold cvTokenErrors
    rw [foldl_collect]
    simp

/-- C6 counterexample — `ValidatorAgent.check_token_compliance` (regex
`#[0-9a-fA-F]{3,6}`) extracts the four-digit literal `#abcd`, which is not of
the `#` + 3-or-6-hex-digit shape, and emits an UnauthorizedToken message for
it. -/
theorem hex_extraction_width_counterexample :
    vaHexFindall "color: #abcd;" = ["#abcd"] ∧
    isHex3or6 "#abcd" = false ∧
    vaTokenErrors fallbackDS "color: #abcd;" = [vaUnauthMsg "#abcd"] := by
  decide

theorem cvFindallF_shape : ∀ (fuel : Nat) (l : List Char),
    ∀ m ∈ cvFindallF fuel l,
      ∃ ds, m = '#' :: ds ∧ (ds.length = 6 ∨ ds.length = 3) ∧ ∀ c ∈ ds, isHexDigit c = true := by
  intro fuel
  induction fuel with
  | zero => intro l m hm; simp [cvFindallF] at hm
  | succ fuel ih =>
    intro l m hm
    cases l with
    | nil => simp [cvFindallF] at hm
    | cons c rest =>
      rw [cvFindallF] at hm
      by_cases hc : (c == '#') = true
      · rw [if_pos hc] at hm
        by_cases h6 : ((takeHexAux 6 rest).1.length == 6) = true
        · rw [if_pos h6] at hm
          rcases List.mem_cons.mp hm with hm1 | hm1
          · exact ⟨(takeHexAux 6 rest).1, hm1, Or.inl (by simpa using h6), takeHexAux_all_hex 6 rest⟩
          · exact ih _ m hm1
        · rw [if_neg h6] at hm
          by_cases h3 : 3 ≤ (takeHexAux 6 rest).1.length
          · rw [if_pos h3] at hm
            rcases List.mem_cons.mp hm with hm1 | hm1
            · refine ⟨(takeHexAux 6 rest).1.take 3, hm1, Or.inr ?_, ?_⟩
              · rw [List.length_take]
                omega
              · intro x hx
                exact takeHexAux_all_hex 6 rest x (List.mem_of_mem_take hx)
            · exact ih _ m hm1
          · rw [if_neg h3] at hm
            exact ih _ m hm
      · rw [if_neg hc] at hm
        exact ih _ m hm

/-- C6 amended — `CodeValidator.validate_tokens` satisfies the claim
verbatim: every extracted literal is `#` followed by exactly 6 or exactly 3
hex digits, and the error list consists exactly of the UnauthorizedToken
messages of the extracted literals whose lower-casing is not among the
lower-cased flattened string values of the colors namespace, in extraction
order.  (`ValidatorAgent.check_token_compliance` deviates: its regex
`#[0-9a-fA-F]{3,6}` also extracts 4- and 5-digit literals, and its allowed
set is the unflattened top-level `#`-prefixed color values.) -/
theorem cv_token_check_extraction_and_membership (colors : TokList) (code : String) :
    (∀ m ∈ cvHexFindall code, isHex3or6 m = true) ∧
    cvTokenErrors colors code
      = ((cvHexFindall code).filter
          (fun c => !(cvAllowedLower colors).contains (lowerStr c))).map cvUnauthMsg := by
  constructor
  · intro m hm
    unfold cvHexFindall at hm
    rcases List.mem_map.mp hm with ⟨l, hl, hml⟩
    rcases cvFindallF_shape _ _ l hl with ⟨ds, hds, hlen, hhex⟩
    subst hml
    subst hds
    have hred : isHex3or6 ⟨'#' :: ds⟩
        = ('#' == '#' && (ds.length == 3 || ds.length == 6) && ds.all isHexDigit) := rfl
    rw [hred]
    simp only [Bool.and_eq_true, Bool.or_eq_true, beq_iff_eq, List.all_eq_true]
    refine ⟨⟨trivial, ?_⟩, hhex⟩
    rcases hlen with h | h
    · right; exact h
    · left; exact h
  · unfold cvTokenErrors
    rw [foldl_collect]
    simp

theorem cv_token_check_extraction_and_membership_witness :
    isHex3or6 "#123456" = true :=
  (cv_token_check_extraction_and_membership TokList.nil "a #123456 b").1 "#123456" (by decide)

theorem genAux_exhaust (maxRetries : Nat) (ds : DesignSystem) (gen : Nat → String) :
    ∀ (fuel : Nat), 1 ≤ fuel → ∀ (attempt : Nat) (code model : String),
      attempt + fuel = maxRetries + 1 →
      (∀ i, attempt ≤ i → i ≤ maxRetries →
        (gen i).length = 2 ∧ (vaValidate ds (strTake (gen i) 1)).valid = false) →
      (generateComponentAux maxRetries ds gen fuel attempt code model).1
        = ⟨strTake (gen maxRetries) 1, maxRetries + 1, false, some (strDrop (gen maxRetries) 1)⟩ := by
  intro fuel
  induction fuel with
  | zero => intro h; omega
  | succ fuel ih =>
    intro _ attempt code model hsum hall
    have hle : attempt ≤ maxRetries := by omega
    rcases hall attempt le_rfl hle with ⟨hlen, hval⟩
    rw [generateComponentAux, if_pos hlen, if_neg (by simp [hval])]
    cases fuel with
    | zero =>
      have hA : attempt = maxRetries := by omega
      subst hA
      rfl
    | succ fuel2 =>
      exact ih (by omega) (attempt + 1) (strTake (gen attempt) 1) (strDrop (gen attempt) 1)
        (by omega) (fun i hi1 hi2 => hall i (by omega) hi2)

/-- C2 — When every attempt of the budget produces code that fails
validation (each model call returning normally, which with the
tuple-unpacking of `current_code, used_model = await generator.generate(...)`
means a two-character string, split into code and model), the orchestrator
falls out of the loop and returns the last code produced, with
`success = false` and `iterations` equal to the number of attempts made
(`MAX_RETRIES + 1`); exhaustion is a normal return value, not an exception. -/
theorem orchestrator_exhaustion_returns_last_code (ds : DesignSystem) (gen : Nat → String)
    (h : ∀ i, i ≤ MAX_RETRIES →
      (gen i).length = 2 ∧ (vaValidate ds (strTake (gen i) 1)).valid = false) :
    (generateComponent MAX_RETRIES ds gen).1
      = ⟨strTake (gen MAX_RETRIES) 1, MAX_RETRIES + 1, false, some (strDrop (gen MAX_RETRIES) 1)⟩ :=
  genAux_exhaust MAX_RETRIES ds gen (MAX_RETRIES + 1) (by omega) 0 "" "unknown" (by omega)
    (fun i _ hi2 => h i hi2)

theorem orchestrator_exhaustion_returns_last_code_witness :
    (generateComponent MAX_RETRIES fallbackDS (fun _ => "ab")).1 = ⟨"a", 4, false, some "b"⟩ := by
  have hone : ("ab" : String).length = 2 ∧
      (vaValidate fallbackDS (strTake "ab" 1)).valid = false := by decide
  have h := orchestrator_exhaustion_returns_last_code fallbackDS (fun _ => "ab")
    (fun _ _ => hone)
  rw [h]
  decide

/-- C10 — `GeneratorAgent.generate` returns one string; the endpoint unpacks
it into `current_code, used_model`, which raises `ValueError` whenever the
string does not have exactly two characters; the `except` branch then
answers with `success = false` and the `// PROMPT INJECTION` diagnostic in
place of code, after a single model call and with no validation run. -/
theorem tuple_unpack_valueerror_diagnostic (maxRetries : Nat) (ds : DesignSystem)
    (gen : Nat → String) (h : (gen 0).length ≠ 2) :
    generateComponent maxRetries ds gen
      = (⟨"// PROMPT INJECTION\n// " ++ unpackErrMsg (gen 0).length, 1, false, none⟩,
         [Event.modelCall 0]) := by
  unfold generateComponent
  rw [generateComponentAux, if_neg h]

theorem tuple_unpack_valueerror_diagnostic_witness :
    generateComponent 3 fallbackDS (fun _ => "abc")
      = (⟨"// PROMPT INJECTION\n// too many values to unpack (expected 2)", 1, false, none⟩,
         [Event.modelCall 0]) := by
  have h := tuple_unpack_valueerror_diagnostic 3 fallbackDS (fun _ => "abc") (by decide)
  rw [h]
  decide

/-- C4 — Any input containing the literal phrase "ignore previous
instructions" (case-insensitively, whatever surrounds it) is rejected by
`sanitize` with an InjectionDetected condition, and the whole request aborts
with a diagnostic in place of code, `success = false`, zero iterations and an
empty action trace: no model call, no validation, no repair attempt, no
partial output. -/
theorem sanitizer_rejects_injection_before_model_call (maxRetries : Nat) (ds : DesignSystem)
    (gen : Nat → String) (prompt : String)
    (h : strContains (lowerStr prompt) "ignore previous instructions" = true) :
    sanitize prompt = Except.error "InjectionDetected" ∧
    runSanitized maxRetries ds gen prompt
      = (⟨"// PROMPT INJECTION\n// InjectionDetected", 0, false, none⟩, []) := by
  have hc : injectionPatterns.any (fun p => strContains (lowerStr prompt) p) = true := by
    simp only [injectionPatterns, List.any_cons, Bool.or_eq_true]
    exact Or.inl h
  have hs : sanitize prompt = Except.error "InjectionDetected" := by
    unfold sanitize
    rw [if_pos hc]
  refine ⟨hs, ?_⟩
  unfold runSanitized
  rw [hs]
  rfl

theorem sanitizer_rejects_injection_before_model_call_witness :
    runSanitized 3 fallbackDS (fun _ => "ab") "Please IGNORE Previous Instructions now"
      = (⟨"// PROMPT INJECTION\n// InjectionDetected", 0, false, none⟩, []) :=
  (sanitizer_rejects_injection_before_model_call 3 fallbackDS (fun _ => "ab")
    "Please IGNORE Previous Instructions now" (by decide)).2

/-- C3 counterexample — with the fallback design system and an API key, a
connectivity/timeout failure of the model call does not abort the request:
`GeneratorAgent.generate` returns the simulation fallback code (here the
auth template for the prompt "login page"), a normal artifact rather than a
surfaced failure. -/
theorem network_error_no_abort_counterexample :
    gaGenerate fallbackDS (some "key") "login page" NetOutcome.netError
      = simulationCode fallbackDS "login page" ∧
    simulationCode fallbackDS "login page"
      = some (authTemplate (gaTokens fallbackDS) "LoginPage") := by
  constructor
  · rfl
  · have h1 : hasPrimaryLight fallbackDS = false := by decide
    have h2 : classifyPrompt "login page" = "auth" := by decide
    have h3 : nameFromPrompt "login page" = "LoginPage" := by decide
    simp [simulationCode, h1, h2, h3]

/-- C3 amended — on a connectivity/timeout error the model client neither
raises nor retries: it immediately answers with the simulation fallback
`_simulation_code(user_prompt)`, and (whenever the design system does not
define `primaryLight`, which would trip the `KeyError` described at
`simulationCode`) that fallback is a produced artifact, not a failure. -/
theorem network_error_falls_back_to_simulation (ds : DesignSystem) (key userPrompt : String)
    (h : hasPrimaryLight ds = false) :
    gaGenerate ds (some key) userPrompt NetOutcome.netError = simulationCode ds userPrompt ∧
    (gaGenerate ds (some key) userPrompt NetOutcome.netError).isSome = true := by
  refine ⟨rfl, ?_⟩
  show (simulationCode ds userPrompt).isSome = true
  unfold simulationCode
  rw [if_neg (by simp [h])]
  rfl

theorem network_error_falls_back_to_simulation_witness :
    gaGenerate fallbackDS (some "k") "a button" NetOutcome.netError
      = simulationCode fallbackDS "a button" ∧
    (gaGenerate fallbackDS (some "k") "a button" NetOutcome.netError).isSome = true :=
  network_error_falls_back_to_simulation fallbackDS "k" "a button" (by decide)

/-- C9 counterexample — a run whose three attempts all produce invalid code
(the callback always answers `"bad"`, which has no `@Component`, `selector:`
or `template:` marker) exhausts the budget and returns `"bad"`, yet the
history gains only the user turn: the exhausted output is not appended as
an assistant turn. -/
theorem exhausted_output_not_appended_counterexample :
    runPipeline TokList.nil "sys" [] "p" (fun _ => "bad")
      = ("bad", [⟨"user", "p"⟩]) := by
  decide

theorem runPipelineAux_shape (colors : TokList) (llm : List Turn → String) :
    ∀ (fuel : Nat) (hist1 messages : List Turn) (lastCode : String),
      (runPipelineAux colors llm fuel hist1 messages lastCode).2 = hist1 ∨
      ((runPipelineAux colors llm fuel hist1 messages lastCode).2
          = hist1 ++ [⟨"assistant",
              tsFence (runPipelineAux colors llm fuel hist1 messages lastCode).1⟩] ∧
        (fullValidation colors (runPipelineAux colors llm fuel hist1 messages lastCode).1).1 = true) := by
  intro fuel
  induction fuel with
  | zero => intro hist1 messages lastCode; left; rfl
  | succ fuel ih =>
    intro hist1 messages lastCode
    rw [runPipelineAux]
    by_cases hv : (fullValidation colors (extractFenced (llm messages))).1 = true
    · right
      rw [if_pos hv]
      exact ⟨rfl, hv⟩
    · rw [if_neg hv]
      exact ih hist1 _ _

/-- C9 amended — `run_pipeline` only ever appends to the history: every run
appends the user turn, the repair-loop turns live only in the per-run
message list and are never persisted, and an assistant turn is appended
exactly for an accepted (validated) final output — on exhaustion nothing
beyond the user turn is appended, so the exhausted output is not persisted. -/
theorem history_append_only_final_only (colors : TokList) (sysPrompt : String)
    (history : List Turn) (userPrompt : String) (llm : List Turn → String) :
    history <+: (runPipeline colors sysPrompt history userPrompt llm).2 ∧
    ((runPipeline colors sysPrompt history userPrompt llm).2
        = history ++ [⟨"user", userPrompt⟩] ∨
      ((runPipeline colors sysPrompt history userPrompt llm).2
          = history ++ [⟨"user", userPrompt⟩,
              ⟨"assistant", tsFence (runPipeline colors sysPrompt history userPrompt llm).1⟩] ∧
        (fullValidation colors (runPipeline colors sysPrompt history userPrompt llm).1).1 = true)) := by
  have h := runPipelineAux_shape colors llm 3 (history ++ [⟨"user", userPrompt⟩])
    (⟨"system", sysPrompt⟩ :: (history ++ [⟨"user", userPrompt⟩])) ""
  unfold runPipeline
  rcases h with h | ⟨h, hv⟩
  · refine ⟨?_, Or.inl h⟩
    rw [h]
    exact List.prefix_append history _
  · refine ⟨?_, Or.inr ⟨?_, hv⟩⟩
    · rw [h]
      rw [List.append_assoc]
      exact List.prefix_append history _
    · rw [h, List.append_assoc]
      rfl

theorem dropWhile_head_false (p : Char → Bool) :
    ∀ (l : List Char) (c : Char) (t : List Char), l.dropWhile p = c :: t → p c = false := by
  intro l
  induction l with
  | nil => intro c t h; simp [List.dropWhile] at h
  | cons a rest ih =>
    intro c t h
    by_cases hp : p a = true
    · rw [List.dropWhile_cons_of_pos hp] at h
      exact ih c t h
    · rw [List.dropWhile_cons_of_neg hp] at h
      cases h
      simpa using hp

theorem replaceTriple_head_bt :
    ∀ l : List Char, [btChar] <+: replaceTriple l → [btChar] <+: l := by
  intro l
  match l with
  | [] => intro h; exact h
  | [a] => intro h; exact h
  | [a, b] => intro h; exact h
  | a :: b :: c :: rest =>
    intro h
    by_cases hbt : (isBT a && isBT b && isBT c) = true
    · have ha : a = btChar := by
        have := hbt
        simp only [isBT, Bool.and_eq_true, beq_iff_eq] at this
        exact this.1.1
      exact (List.cons_prefix_cons).mpr ⟨ha.symm, List.nil_prefix⟩
    · rw [replaceTriple, if_neg hbt] at h
      rcases (List.cons_prefix_cons).mp h with ⟨hab, _⟩
      exact (List.cons_prefix_cons).mpr ⟨hab, List.nil_prefix⟩

theorem replaceTriple_two_bt :
    ∀ l : List Char, [btChar, btChar] <+: replaceTriple l → [btChar, btChar] <+: l := by
  intro l
  match l with
  | [] => intro h; exact h
  | [a] => intro h; exact h
  | [a, b] => intro h; exact h
  | a :: b :: c :: rest =>
    intro h
    by_cases hbt : (isBT a && isBT b && isBT c) = true
    · have hab : a = btChar ∧ b = btChar := by
        have := hbt
        simp only [isBT, Bool.and_eq_true, beq_iff_eq] at this
        exact ⟨this.1.1, this.1.2⟩
      exact (List.cons_prefix_cons).mpr ⟨hab.1.symm,
        (List.cons_prefix_cons).mpr ⟨hab.2.symm, List.nil_prefix⟩⟩
    · rw [replaceTriple, if_neg hbt] at h
      rcases (List.cons_prefix_cons).mp h with ⟨ha, h1⟩
      have hb := replaceTriple_head_bt (b :: c :: rest) h1
      rcases (List.cons_prefix_cons).mp hb with ⟨hb1, _⟩
      exact (List.cons_prefix_cons).mpr ⟨ha,
        (List.cons_prefix_cons).mpr ⟨hb1, List.nil_prefix⟩⟩

theorem replaceTriple_noTriple :
    ∀ (n : Nat) (l : List Char), l.length ≤ n → ¬ tripleBT <:+: replaceTriple l := by
  intro n
  induction n with
  | zero =>
    intro l hl
    have : l = [] := List.eq_nil_of_length_eq_zero (by omega)
    subst this
    intro habs
    have := (List.infix_nil).mp habs
    simp [tripleBT] at this
  | succ n ih =>
    intro l hl
    match l with
    | [] =>
      intro habs
      have := (List.infix_nil).mp habs
      simp [tripleBT] at this
    | [a] =>
      intro habs
      rw [show replaceTriple [a] = [a] from rfl] at habs
      have := habs.length_le
      simp [tripleBT] at this
    | [a, b] =>
      intro habs
      rw [show replaceTriple [a, b] = [a, b] from rfl] at habs
      have := habs.length_le
      simp [tripleBT] at this
    | a :: b :: c :: rest =>
      by_cases hbt : (isBT a && isBT b && isBT c) = true
      · rw [replaceTriple, if_pos hbt]
        exact ih rest (by simp at hl; omega)
      · rw [replaceTriple, if_neg hbt]
        intro habs
        rcases (List.infix_cons_iff).mp habs with hpre | hinf
        · rcases (List.cons_prefix_cons).mp hpre with ⟨ha, h2⟩
          have h2' := replaceTriple_two_bt (b :: c :: rest) h2
          rcases (List.cons_prefix_cons).mp h2' with ⟨hb, h3⟩
          rcases (List.cons_prefix_cons).mp h3 with ⟨hc, _⟩
          apply hbt
          simp [isBT, ← ha, ← hb, ← hc]
        · exact ih (b :: c :: rest) (by simp at hl ⊢; omega) hinf

theorem replaceTriple_id :
    ∀ (n : Nat) (l : List Char), l.length ≤ n → ¬ tripleBT <:+: l → replaceTriple l = l := by
  intro n
  induction n with
  | zero =>
    intro l hl _
    have : l = [] := List.eq_nil_of_length_eq_zero (by omega)
    subst this
    rfl
  | succ n ih =>
    intro l hl hni
    match l with
    | [] => rfl
    | [a] => rfl
    | [a, b] => rfl
    | a :: b :: c :: rest =>
      by_cases hbt : (isBT a && isBT b && isBT c) = true
      · exfalso
        apply hni
        refine List.IsPrefix.isInfix ?_
        simp only [isBT, Bool.and_eq_true, beq_iff_eq] at hbt
        rcases hbt with ⟨⟨ha, hb⟩, hc⟩
        subst ha; subst hb; subst hc
        exact (List.cons_prefix_cons).mpr ⟨rfl,
          (List.cons_prefix_cons).mpr ⟨rfl,
            (List.cons_prefix_cons).mpr ⟨rfl, List.nil_prefix⟩⟩⟩
      · rw [replaceTriple, if_neg hbt]
        have : replaceTriple (b :: c :: rest) = b :: c :: rest := by
          apply ih (b :: c :: rest) (by simp at hl ⊢; omega)
          intro habs
          exact hni ((List.infix_cons_iff).mpr (Or.inr habs))
        rw [this]

theorem subFenceFuel_id :
    ∀ (fuel : Nat) (l : List Char), l.length ≤ fuel → ¬ tripleBT <:+: l →
      subFenceFuel fuel l = l := by
  intro fuel
  induction fuel with
  | zero => intro l _ _; rfl
  | succ fuel ih =>
    intro l hl hni
    match l with
    | [] => rfl
    | [a] => rfl
    | [a, b] => rfl
    | a :: b :: c :: rest =>
      by_cases hbt : (isBT a && isBT b && isBT c) = true
      · exfalso
        apply hni
        refine List.IsPrefix.isInfix ?_
        simp only [isBT, Bool.and_eq_true, beq_iff_eq] at hbt
        rcases hbt with ⟨⟨ha, hb⟩, hc⟩
        subst ha; subst hb; subst hc
        exact (List.cons_prefix_cons).mpr ⟨rfl,
          (List.cons_prefix_cons).mpr ⟨rfl,
            (List.cons_prefix_cons).mpr ⟨rfl, List.nil_prefix⟩⟩⟩
      · rw [subFenceFuel, if_neg hbt]
        have : subFenceFuel fuel (b :: c :: rest) = b :: c :: rest := by
          apply ih (b :: c :: rest) (by simp at hl ⊢; omega)
          intro habs
          exact hni ((List.infix_cons_iff).mpr (Or.inr habs))
        rw [this]

theorem stripList_isInfix (l : List Char) : stripList l <:+: l := by
  unfold stripList
  have h1 : l.dropWhile pyIsSpace <:+ l := List.dropWhile_suffix pyIsSpace
  have h2 : (l.dropWhile pyIsSpace).reverse.dropWhile pyIsSpace <:+
      (l.dropWhile pyIsSpace).reverse := List.dropWhile_suffix pyIsSpace
  have h3 : ((l.dropWhile pyIsSpace).reverse.dropWhile pyIsSpace).reverse <+:
      l.dropWhile pyIsSpace := by
    rw [← List.reverse_suffix]
    simpa using h2
  exact h3.isInfix.trans h1.isInfix

theorem stripList_idem (l : List Char) : stripList (stripList l) = stripList l := by
  set f := pyIsSpace with hf
  set a := l.dropWhile f with hA
  set b := a.reverse.dropWhile f with hB
  have hsl : stripList l = b.reverse := rfl
  have claimB : b.dropWhile f = b := by
    rw [hB]
    exact List.dropWhile_idempotent f a.reverse
  have claimA : (b.reverse).dropWhile f = b.reverse := by
    match hbr : b.reverse with
    | [] => rfl
    | x :: t =>
      -- b.reverse is a nonempty prefix of a, whose head fails f
      have hpre : b.reverse <+: a := by
        rw [← List.reverse_suffix]
        simpa [hB] using List.dropWhile_suffix (l := a.reverse) f
      rw [hbr] at hpre
      rcases hpre with ⟨s, hs⟩
      have hhead : f x = false := by
        apply dropWhile_head_false f l x (t ++ s)
        rw [← hA, ← hs]
        rfl
      rw [List.dropWhile_cons_of_neg (by simp [hhead])]
  calc stripList (stripList l)
      = ((b.reverse.dropWhile f).reverse.dropWhile f).reverse := by rw [hsl]; rfl
    _ = (b.reverse.reverse.dropWhile f).reverse := by rw [claimA]
    _ = (b.dropWhile f).reverse := by rw [List.reverse_reverse]
    _ = b.reverse := by rw [claimB]
    _ = stripList l := by rw [hsl]

/-- C8 — the output cleaner `_strip_markdown` is idempotent:
`clean(clean(x)) = clean(x)` for every string `x`. -/
theorem clean_idempotent (s : String) : stripMarkdown (stripMarkdown s) = stripMarkdown s := by
  show (⟨smList (⟨smList s.data⟩ : String).data⟩ : String) = ⟨smList s.data⟩
  have hdata : (⟨smList s.data⟩ : String).data = smList s.data := rfl
  rw [hdata]
  suffices h : ∀ l : List Char, smList (smList l) = smList l by rw [h]
  intro l
  have hy : ¬ tripleBT <:+: replaceTriple (subFenceFuel (l.length + 1) l) :=
    replaceTriple_noTriple (subFenceFuel (l.length + 1) l).length _ le_rfl
  have hc : ¬ tripleBT <:+: smList l := by
    intro habs
    exact hy (habs.trans (stripList_isInfix _))
  have hsm : ∀ m : List Char,
      smList m = stripList (replaceTriple (subFenceFuel (m.length + 1) m)) := fun _ => rfl
  rw [hsm (smList l)]
  rw [subFenceFuel_id ((smList l).length + 1) (smList l) (by omega) hc]
  rw [replaceTriple_id (smList l).length (smList l) le_rfl hc]
  rw [hsm l]
  exact stripList_idem _
